import Mathlib

/-!
Verification development for the offline-tolerant attendance ledger and
synchronization engine of the facial-recognition attendance system
(src/models/attendance_logger.py and src/models/sync_manager.py, with the
configuration constants from src/config/settings.py).

Modelling conventions:
* A Python `datetime` is modelled as a natural number of seconds since an
  arbitrary midnight-aligned epoch.  `date.today().isoformat()` becomes
  `now / 86400` (the day index) and `now.strftime(h m s)` becomes
  `now % 86400` (seconds within the day).
* `timedelta.seconds` (the truncating attribute used by the source, not
  `total_seconds()`) is modelled by `tdSeconds`.  For the `strptime`-based
  subtraction in `log_timeout` note that `datetime.strptime(t, h m s)`
  yields 1900-01-01 at time `t`; 1900-01-01 00:00:00 is midnight-aligned,
  so `(now - strptime t).seconds = (now mod 86400 - t) mod 86400`, which
  `strptimeDiffSeconds` computes.
* MySQL rows of the `attendance` table are `CRecord`; the SQL statements
  in the source are interpreted over a list of rows in insertion order
  (`fetch_one` = `List.find?`, `UPDATE` = `List.map` guarded by the WHERE
  clause, `INSERT` = append with a fresh surrogate id).
* Python floats (`hours_worked`) are modelled as exact rationals; the
  values appearing in this development (8, 9.5, …) are exactly
  representable in binary floating point, so no rounding discrepancy is
  introduced.  The source's `round(hours_worked, 2)` in the returned
  message is the identity on every value reached here, and results carry
  the stored (unrounded) value.
* `config/database.py` (classes `MySQLDatabase` / `SQLiteDatabase`) is not
  part of the available sources; the SQLite-buffer operations it provides
  (`insert_attendance`, `update_timeout`, `get_pending_records`,
  `mark_synced`) and the MySQL connectivity flag are modelled from the
  spec (sections 4.2 and 4.3), see the individual doc comments.
* A `_sync_record` write failure (the `except` branch) is modelled as the
  first MySQL call raising, so a failed record attempt leaves the central
  store unchanged and returns `false`.
-/

/-- Configuration constants from src/config/settings.py. -/
def DUPLICATE_TIMEOUT_SECONDS : Nat := 30

/-- Constant `MAX_RETRY_ATTEMPTS` from src/config/settings.py. -/
def MAX_RETRY_ATTEMPTS : Nat := 3

/-- The only `status` value the core ever writes (fixed at creation). -/
inductive WStatus where
  | present
  deriving DecidableEq, Repr

/-- A row of the central MySQL `attendance` table. -/
structure CRecord where
  attendance_id : Nat
  worker_id : Nat
  attendance_date : Nat
  time_in : Nat
  time_out : Option Nat
  hours_worked : Option ℚ
  status : WStatus
  is_archived : Bool
  deriving DecidableEq, Repr

/-- A row of the local SQLite buffer.  The buffer retains synced records
via a flag (soft delete); `failed` mirrors the spec's terminal failed
state for the buffer (section 4.2) — note that no operation of the
sources ever sets it. -/
structure BRecord where
  id : Nat
  worker_id : Nat
  attendance_date : Nat
  time_in : Nat
  time_out : Option Nat
  hours_worked : Option ℚ
  status : WStatus
  synced : Bool
  failed : Bool
  deriving DecidableEq, Repr

/-- Combined system state: connectivity flag of the central store, the two
stores, the in-memory duplicate-scan cache (`AttendanceLogger
.last_scan_cache`, keyed by worker and day), the in-memory retry counters
(`SyncManager.retry_count`, keyed by buffer id), and the next fresh
surrogate ids of the two stores. -/
structure SysState where
  mysql_connected : Bool
  central : List CRecord
  buffer : List BRecord
  last_scan_cache : List ((Nat × Nat) × Nat)
  retry_count : List (Nat × Nat)
  next_cid : Nat
  next_bid : Nat
  deriving DecidableEq, Repr

/-- Association-list lookup for the duplicate-scan cache. -/
def alookup (l : List ((Nat × Nat) × Nat)) (k : Nat × Nat) : Option Nat :=
  (l.find? (fun p => p.1 == k)).map (fun p => p.2)

/-- Python dict assignment on the duplicate-scan cache.  A dict is
observed only through key lookup, so the newest binding is prepended and
shadows any older binding for the same key. -/
def aset (l : List ((Nat × Nat) × Nat)) (k : Nat × Nat) (v : Nat) :
    List ((Nat × Nat) × Nat) :=
  (k, v) :: l

/-- Association-list lookup for the retry counters. -/
def rlookup (l : List (Nat × Nat)) (k : Nat) : Option Nat :=
  (l.find? (fun p => p.1 == k)).map (fun p => p.2)

/-- Python dict assignment on the retry counters (newest binding
prepended, shadowing older bindings for the same key). -/
def rset (l : List (Nat × Nat)) (k : Nat) (v : Nat) : List (Nat × Nat) :=
  (k, v) :: l

/-- Python `del` on the retry counters: removes every binding of the
key (only called when the key exists; deleting an absent key is
harmlessly the identity here). -/
def rdel (l : List (Nat × Nat)) (k : Nat) : List (Nat × Nat) :=
  l.filter (fun p => !(p.1 == k))

/-- Python `timedelta.seconds` of `now - last` for `now ≥ last`: Python
normalises a timedelta so that the `seconds` attribute is the total
seconds modulo 86400. -/
def tdSeconds (now last : Nat) : Nat :=
  (now - last) % 86400

/-- Python `timedelta.seconds` of `now - datetime.strptime(tin, h m s)`: the
strptime result lives on (midnight-aligned) 1900-01-01, so the attribute
equals the difference of the within-day offsets modulo 86400. -/
def strptimeDiffSeconds (now tin : Nat) : Nat :=
  (now % 86400 + 86400 - tin % 86400) % 86400

/-- The `fetch_one` of `log_timein` and of `_sync_record`:
`SELECT … FROM attendance WHERE worker_id = w AND attendance_date = d AND
is_archived = 0`. -/
def findExisting (central : List CRecord) (w d : Nat) : Option CRecord :=
  central.find? (fun c =>
    c.worker_id == w && c.attendance_date == d && !c.is_archived)

/-- The `fetch_one` of `log_timeout`: additionally `time_out IS NULL`. -/
def findOpen (central : List CRecord) (w d : Nat) : Option CRecord :=
  central.find? (fun c =>
    c.worker_id == w && c.attendance_date == d && c.time_out == none
      && !c.is_archived)

/-- Modelled from the spec: `SQLiteDatabase.insert_attendance` (the
Local Buffer's `append`, section 4.2) durably appends a new
PendingSyncRecord with the given fields, `status = present` fixed at
creation (section 3), and returns its fresh buffer id. -/
def insert_attendance (buffer : List BRecord) (bid w d tin : Nat) :
    List BRecord :=
  buffer ++ [⟨bid, w, d, tin, none, none, .present, false, false⟩]

/-- Modelled from the spec: `SQLiteDatabase.update_timeout` finds the
open record for (worker_id, today) in the buffer — open meaning
`time_out` absent (glossary / section 4.1) — sets its `time_out` and
`hours_worked`, and reports failure when no open record exists. -/
def update_timeout (buffer : List BRecord) (w d tout : Nat) (hrs : ℚ) :
    Option (List BRecord) :=
  match buffer with
  | [] => none
  | b :: rest =>
    if b.worker_id == w && b.attendance_date == d && b.time_out == none then
      some ({b with time_out := some tout, hours_worked := some hrs} :: rest)
    else
      (update_timeout rest w d tout hrs).map (fun l => b :: l)

/-- Modelled from the spec: `SQLiteDatabase.get_pending_records` returns
all records not yet marked synced or failed, in the order they were
appended (section 4.2). -/
def get_pending_records (buffer : List BRecord) : List BRecord :=
  buffer.filter (fun b => !b.synced && !b.failed)

/-- Modelled from the spec: `SQLiteDatabase.mark_synced` flags the record
with the given buffer id as synced (idempotent soft delete, section
4.2). -/
def mark_synced (buffer : List BRecord) (bid : Nat) : List BRecord :=
  buffer.map (fun b => if b.id == bid then {b with synced := true} else b)

/-- Outcome tag of `log_timein` (the `action` field of the returned
dict). -/
inductive TimeinAction where
  | timein
  | duplicate
  | already_in
  | completed
  deriving DecidableEq, Repr

/-- The dict returned by `log_timein`, restricted to its
decision-relevant fields. -/
structure TimeinResult where
  success : Bool
  action : TimeinAction
  attendance_id : Option Nat
  time_in : Option Nat
  deriving DecidableEq, Repr

/-- Outcome tag of `log_timeout`. -/
inductive TimeoutAction where
  | timeout
  | no_timein
  deriving DecidableEq, Repr

/-- The dict returned by `log_timeout`; `hours_worked` carries the stored
(unrounded) value, see the module comment. -/
structure TimeoutResult where
  success : Bool
  action : TimeoutAction
  time_out : Option Nat
  hours_worked : Option ℚ
  deriving DecidableEq, Repr

/-- The duplicate-scan-cache test of `log_timein` (lines 33-42): a cache
entry for (worker, today) exists and is younger than
`DUPLICATE_TIMEOUT_SECONDS`. -/
def isDupScan (s : SysState) (w now : Nat) : Bool :=
  match alookup s.last_scan_cache (w, now / 86400) with
  | some last => tdSeconds now last < DUPLICATE_TIMEOUT_SECONDS
  | none => false

/-- Method `AttendanceLogger.log_timein` (src/models/attendance_logger.py lines
18-103).  The activity-log insert (informational audit trail) is not
modelled; surrogate ids start at 1 so the `if attendance_id:` truthiness
test always passes. -/
def log_timein (s : SysState) (w now : Nat) : TimeinResult × SysState :=
  let today := now / 86400
  let key := (w, today)
  if isDupScan s w now then
    (⟨false, .duplicate, none, none⟩, s)
  else
    let tin := now % 86400
    let doInsert : TimeinResult × SysState :=
      if s.mysql_connected then
        let aid := s.next_cid
        (⟨true, .timein, some aid, some tin⟩,
         {s with central :=
                   s.central ++ [⟨aid, w, today, tin, none, none, .present, false⟩],
                 next_cid := aid + 1,
                 last_scan_cache := aset s.last_scan_cache key now})
      else
        let bid := s.next_bid
        (⟨true, .timein, some bid, some tin⟩,
         {s with buffer := insert_attendance s.buffer bid w today tin,
                 next_bid := bid + 1,
                 last_scan_cache := aset s.last_scan_cache key now})
    if s.mysql_connected then
      match findExisting s.central w today with
      | some ex =>
        if ex.time_out = none then
          (⟨false, .already_in, some ex.attendance_id, none⟩, s)
        else
          (⟨false, .completed, none, none⟩, s)
      | none => doInsert
    else
      doInsert

/-- Method `AttendanceLogger.log_timeout` (src/models/attendance_logger.py lines
105-174).  Central branch: hours from the `.seconds`-truncated
`strptime` difference; offline branch: the hardcoded 8.0 default
estimate of line 156. -/
def log_timeout (s : SysState) (w now : Nat) : TimeoutResult × SysState :=
  let today := now / 86400
  let tout := now % 86400
  if s.mysql_connected then
    match findOpen s.central w today with
    | none => (⟨false, .no_timein, none, none⟩, s)
    | some r =>
      let hours : ℚ := (strptimeDiffSeconds now r.time_in : ℚ) / 3600
      (⟨true, .timeout, some tout, some hours⟩,
       {s with central :=
                 s.central.map (fun c =>
                   if c.attendance_id == r.attendance_id then
                     {c with time_out := some tout, hours_worked := some hours}
                   else c)})
  else
    let hours : ℚ := 8
    match update_timeout s.buffer w today tout hours with
    | none => (⟨false, .no_timein, none, none⟩, s)
    | some buf =>
      (⟨true, .timeout, some tout, some hours⟩, {s with buffer := buf})

/-- Method `SyncManager._sync_record`, success path (src/models/sync_manager.py
lines 67-107): idempotency guard by (worker_id, attendance_date) against
non-archived rows; on a hit, an update-close guarded by `time_out IS
NULL` only when the buffered record carries a time_out; on a miss, a
verbatim insert.  Returns the new central table and next surrogate
id. -/
def sync_record (central : List CRecord) (nextId : Nat) (r : BRecord) :
    List CRecord × Nat :=
  match findExisting central r.worker_id r.attendance_date with
  | some ex =>
    match r.time_out with
    | some tout =>
      (central.map (fun c =>
        if c.attendance_id == ex.attendance_id && c.time_out == none then
          {c with time_out := some tout, hours_worked := r.hours_worked}
        else c), nextId)
    | none => (central, nextId)
  | none =>
    (central ++ [⟨nextId, r.worker_id, r.attendance_date, r.time_in,
                  r.time_out, r.hours_worked, r.status, false⟩],
     nextId + 1)

/-- Aggregate counts returned by `sync_all`. -/
structure SyncCounts where
  synced : Nat
  failed : Nat
  pending : Nat
  deriving DecidableEq, Repr

/-- The per-record loop of `SyncManager.sync_all` (lines 35-60) over the
snapshot of pending records.  `wf b` tells whether the central-store
write for buffer id `b` raises (modelled as raising on the first MySQL
call, leaving the central store unchanged). -/
def syncLoop (wf : Nat → Bool) :
    List BRecord → SysState → Nat → Nat → SysState × Nat × Nat
  | [], s, sc, fc => (s, sc, fc)
  | r :: rest, s, sc, fc =>
    let skip :=
      match rlookup s.retry_count r.id with
      | some n => decide (MAX_RETRY_ATTEMPTS ≤ n)
      | none => false
    if skip then
      syncLoop wf rest s sc (fc + 1)
    else if wf r.id then
      syncLoop wf rest
        {s with retry_count :=
                  rset s.retry_count r.id
                    ((rlookup s.retry_count r.id).getD 0 + 1)}
        sc (fc + 1)
    else
      let res := sync_record s.central s.next_cid r
      syncLoop wf rest
        {s with central := res.1,
                next_cid := res.2,
                buffer := mark_synced s.buffer r.id,
                retry_count := rdel s.retry_count r.id}
        (sc + 1) fc

/-- Method `SyncManager.sync_all` (src/models/sync_manager.py lines 19-65).
`connectOk` is the outcome of the external `connect()` attempt when the
store is unreachable. -/
def sync_all (s : SysState) (connectOk : Bool) (wf : Nat → Bool) :
    SyncCounts × SysState :=
  if !s.mysql_connected && !connectOk then
    (⟨0, 0, 0⟩, s)
  else
    let s0 := if s.mysql_connected then s else {s with mysql_connected := true}
    let pending := get_pending_records s0.buffer
    let res := syncLoop wf pending s0 0 0
    (⟨res.2.1, res.2.2, pending.length - res.2.1 - res.2.2⟩, res.1)

/-- Process restart: the durable stores and external connectivity
persist, the in-memory duplicate-scan cache and retry counters are
lost (spec sections 3 and 4.2: the buffer survives crashes, the
suppression cache and `SyncManager.retry_count` are plain in-memory
dicts). -/
def restart (s : SysState) : SysState :=
  {s with last_scan_cache := [], retry_count := []}

/-- A fresh system state with the given connectivity. -/
def emptyState (conn : Bool) : SysState :=
  ⟨conn, [], [], [], [], 1, 1⟩

/-- A ledger call: a time-in or time-out event with its wall-clock
instant. -/
inductive LedgerOp where
  | tin (w : Nat) (now : Nat)
  | tout (w : Nat) (now : Nat)
  deriving DecidableEq, Repr

/-- Execute one ledger call for its state effect. -/
def runOp (s : SysState) : LedgerOp → SysState
  | .tin w now => (log_timein s w now).2
  | .tout w now => (log_timeout s w now).2

/-- Execute a sequence of ledger calls. -/
def runOps (s : SysState) (ops : List LedgerOp) : SysState :=
  ops.foldl runOp s

/-- Number of open (time_out null), non-archived central records for
(worker, date). -/
def openCountCentral (s : SysState) (w d : Nat) : Nat :=
  (s.central.filter (fun c =>
    c.worker_id == w && c.attendance_date == d && !c.is_archived
      && c.time_out == none)).length

/-- Number of open buffered records for (worker, date). -/
def openCountBuffer (s : SysState) (w d : Nat) : Nat :=
  (s.buffer.filter (fun b =>
    b.worker_id == w && b.attendance_date == d && b.time_out == none)).length

/-- Open records for (worker, date) across both stores combined. -/
def openTotal (s : SysState) (w d : Nat) : Nat :=
  openCountCentral s w d + openCountBuffer s w d

/-- The all-writes-succeed failure oracle. -/
def noWriteError : Nat → Bool := fun _ => false

/-- The all-writes-fail failure oracle. -/
def allWriteError : Nat → Bool := fun _ => true

/-- Closed-record preservation on the central table: every record of
`old` with `time_out` set keeps its identity, `time_in`, `time_out` and
`hours_worked` in `new`. -/
def recClosedKept (old new : List CRecord) : Prop :=
  ∀ c ∈ old, ∀ v, c.time_out = some v →
    ∃ c' ∈ new, c'.attendance_id = c.attendance_id ∧ c'.time_out = some v ∧
      c'.time_in = c.time_in ∧ c'.hours_worked = c.hours_worked

/-- Closed-record preservation on the buffer. -/
def bufClosedKept (old new : List BRecord) : Prop :=
  ∀ b ∈ old, ∀ v, b.time_out = some v →
    ∃ b' ∈ new, b'.id = b.id ∧ b'.time_out = some v ∧
      b'.time_in = b.time_in ∧ b'.hours_worked = b.hours_worked

/-- Number of non-archived central records for (worker, date) — the
multiplicity probed by the `fetch_one` of `log_timein` and
`_sync_record`. -/
def nonArchCount (l : List CRecord) (w d : Nat) : Nat :=
  (l.filter (fun c =>
    c.worker_id == w && c.attendance_date == d && !c.is_archived)).length

/-- Inductive invariant for connected-only runs: the store stays
connected, the buffer stays empty, and every (worker, date) has at most
one non-archived central record. -/
def InvC (s : SysState) : Prop :=
  s.mysql_connected = true ∧ s.buffer = [] ∧
    ∀ w d, nonArchCount s.central w d ≤ 1

/-- A pending buffered open record (worker 7, day 0, time-in 08:00:00). -/
def rC4 : BRecord := ⟨1, 7, 0, 28800, none, none, .present, false, false⟩

/-- Connected state holding only `rC4` in the buffer. -/
def sC4 : SysState := ⟨true, [], [rC4], [], [], 1, 2⟩

/-- After one sync pass in which every central write fails. -/
def sC4a : SysState := (sync_all sC4 true allWriteError).2

/-- After two such passes. -/
def sC4b : SysState := (sync_all sC4a true allWriteError).2

/-- After three such passes (`MAX_RETRY_ATTEMPTS` failures). -/
def sC4c : SysState := (sync_all sC4b true allWriteError).2

/-- Offline state with one pending buffered record. -/
def sC6 : SysState :=
  ⟨false, [], [⟨1, 7, 0, 28800, none, none, .present, false, false⟩],
   [], [], 1, 2⟩

/-- Offline state whose buffer holds an open record with time-in
08:00:00 (28800 seconds). -/
def sC3 : SysState :=
  ⟨false, [], [⟨1, 7, 0, 28800, none, none, .present, false, false⟩],
   [], [], 1, 2⟩

/-- A record is opened into the buffer while offline, then connectivity
returns before the time-out scan. -/
def sC8 : SysState := {(log_timein (emptyState false) 7 0).2 with
                        mysql_connected := true}

/-- Connected state whose central store holds one closed record. -/
def sC9 : SysState :=
  ⟨true, [⟨1, 7, 0, 28800, some 61200, some 9, .present, false⟩],
   [], [], [], 2, 1⟩

/-- Connected state with one pending buffered record and empty central
store. -/
def sC5w : SysState :=
  ⟨true, [], [⟨1, 7, 0, 28800, none, none, .present, false, false⟩],
   [], [], 1, 2⟩

/-- A pending buffered record without time-out whose (worker, date)
already has a central record with a different time-in. -/
def rC10 : BRecord := ⟨1, 7, 0, 29000, none, none, .present, false, false⟩

/-- Connected state: central already holds a (7, day 0) record, the
buffer holds the matching pending record `rC10`. -/
def sC10 : SysState :=
  ⟨true, [⟨1, 7, 0, 28800, none, none, .present, false⟩], [rC10],
   [], [], 2, 2⟩

/-- Connected state whose central store holds one open record for
(worker 7, day 0). -/
def sC2w : SysState :=
  ⟨true, [⟨1, 7, 0, 28800, none, none, .present, false⟩], [], [], [], 2, 1⟩

/-- C1 (counterexample).  The claim — at most one AttendanceRecord
for a fixed (worker_id, date) is open at any point of a
`log_timein`/`log_timeout` sequence across both stores combined — fails:
with the central store unreachable, two time-ins for worker 7 on day 0
spaced 100 s apart (outside the 30 s suppression window) leave two open
records in the local buffer, because the offline branch of `log_timein`
performs no existing-record check at all. -/
theorem C1_counterexample :
    openTotal (runOps (emptyState false) [.tin 7 0, .tin 7 100]) 7 0 = 2 := by
  decide

/-- C2 (counterexample).  The claim says the existence query is made
against the local buffer when the central store is unreachable, so a
second offline time-in outside the suppression window must be answered
`AlreadyOpen` without creating a second buffered record.  In the code
the query is only made when the central store is connected: the second
offline call is accepted (`action = timein`) and appends a second
buffered record. -/
theorem C2_counterexample :
    (log_timein ((log_timein (emptyState false) 7 0).2) 7 100).1.action
      = TimeinAction.timein ∧
    (log_timein ((log_timein (emptyState false) 7 0).2) 7 100).2.buffer.length
      = 2 := by
  decide

/-- C3 (code evaluated at the failing input).  With the central
store unreachable, closing the buffered open record with time-in
08:00:00 (28800 s) at 17:30:00 (63000 s) stores and returns
`hours_worked = 8` — the hardcoded default estimate of
src/models/attendance_logger.py line 156 — although the elapsed time
`time_out − time_in` is 9.5 hours as the claim requires. -/
theorem C3_failing_eval :
    (log_timeout sC3 7 63000).1.hours_worked = some 8 ∧
    (log_timeout sC3 7 63000).2.buffer.map BRecord.hours_worked = [some 8] ∧
    ((63000 - 28800 : ℚ) / 3600 = 19 / 2 ∧ (8 : ℚ) ≠ 19 / 2) := by
  refine ⟨rfl, rfl, by norm_num, by norm_num⟩

/-- C4 (counterexample).  The claim says a record whose every sync
attempt fails is permanently marked failed in the buffer and excluded
from all subsequent passes, including after a process restart.  After
`MAX_RETRY_ATTEMPTS` failing passes the record is still returned by
`get_pending_records` with its `failed` flag clear (the sources never
mark a buffered record failed), and — the retry counters being an
in-memory dict — a pass after a restart syncs it. -/
theorem C4_counterexample :
    get_pending_records sC4c.buffer = [rC4] ∧
    rC4.failed = false ∧
    (sync_all (restart sC4c) true noWriteError).1.synced = 1 := by
  decide

/-- C4 (amended).  A pending record whose every sync attempt fails
is attempted exactly `MAX_RETRY_ATTEMPTS` times within one process
lifetime (the in-memory retry counter reaches 1, 2, 3 over the first
three failing passes); afterwards a pass skips it without attempting,
still counts it as failed in the pass aggregate, and changes nothing
(the pass is a fixpoint).  The record is never marked failed in the
buffer and remains pending; after a process restart the counter is
lost and a succeeding pass syncs the record. -/
theorem C4_amended :
    (sync_all sC4 true allWriteError).1 = ⟨0, 1, 0⟩ ∧
    rlookup sC4a.retry_count 1 = some 1 ∧
    rlookup sC4b.retry_count 1 = some 2 ∧
    rlookup sC4c.retry_count 1 = some 3 ∧
    sync_all sC4c true allWriteError = (⟨0, 1, 0⟩, sC4c) ∧
    sC4c.buffer = [rC4] ∧
    (sync_all (restart sC4c) true noWriteError).2.buffer
      = [{rC4 with synced := true}] := by
  decide

/-- C6 (counterexample).  With the central store unreachable, a
failed reconnection attempt and one record pending in the buffer, the
claim requires the aggregate `{synced: 0, failed: 0, pending: 1}`; the
code returns the hardcoded `{synced: 0, failed: 0, pending: 0}`
(src/models/sync_manager.py line 29). -/
theorem C6_counterexample :
    (sync_all sC6 false noWriteError).1.pending = 0 ∧
    (get_pending_records sC6.buffer).length = 1 := by
  decide

/-- C6 (amended).  When the central store is unreachable and the
reconnection attempt fails, the sync pass aborts with no partial work
and returns `{synced: 0, failed: 0, pending: 0}` — the pending field is
hardcoded to 0 and does not report the number of records pending in the
buffer. -/
theorem C6_amended (s : SysState) (wf : Nat → Bool)
    (h : s.mysql_connected = false) :
    sync_all s false wf = (⟨0, 0, 0⟩, s) := by
  simp [sync_all, h]

/-- Witness for `C6_amended` at a concrete offline state. -/
theorem C6_amended_witness :
    sync_all sC6 false noWriteError = (⟨0, 0, 0⟩, sC6) :=
  C6_amended sC6 noWriteError rfl

/-- C8 (counterexample).  The claim says the closing update targets
the store the record was opened in; in particular a record opened into
the buffer while offline is closed in the buffer.  If connectivity
returns between the open and the close, `log_timeout` branches on the
current connectivity, queries only the central store, finds nothing and
returns `no_timein`; the buffered record stays open. -/
theorem C8_counterexample :
    (log_timeout sC8 7 100).1.action = TimeoutAction.no_timein ∧
    (log_timeout sC8 7 100).2.buffer.map BRecord.time_out = [none] := by
  decide

/-- C8 (amended).  `log_timeout` writes the closing update to the
store selected by the connectivity at close time: when connected it
writes only to the central store (the buffer is untouched), when offline
only to the buffer (the central store is untouched) — so there is never
a store migration on close; but when the connectivity at close differs
from the one at open, the selected store has no open record and
`log_timeout` returns `no_timein` without writing anywhere, leaving the
open record unclosed rather than closing it in the store that holds
it. -/
theorem C8_amended (s : SysState) (w now : Nat) :
    (s.mysql_connected = true → (log_timeout s w now).2.buffer = s.buffer) ∧
    (s.mysql_connected = false →
        (log_timeout s w now).2.central = s.central) ∧
    (s.mysql_connected = true → findOpen s.central w (now / 86400) = none →
        log_timeout s w now = (⟨false, TimeoutAction.no_timein, none, none⟩, s)) ∧
    (s.mysql_connected = false →
        update_timeout s.buffer w (now / 86400) (now % 86400) 8 = none →
        log_timeout s w now
          = (⟨false, TimeoutAction.no_timein, none, none⟩, s)) := by
  refine ⟨?_, ?_, ?_, ?_⟩
  · intro hc
    cases hfo : findOpen s.central w (now / 86400) <;>
      simp [log_timeout, hc, hfo]
  · intro hc
    cases hut : update_timeout s.buffer w (now / 86400) (now % 86400) 8 <;>
      simp [log_timeout, hc, hut]
  · intro hc hfo
    simp [log_timeout, hc, hfo]
  · intro hc hut
    simp [log_timeout, hc, hut]

/-- Witness for `C8_amended`: in the reconnected state `sC8` the close
attempt leaves the buffer unchanged. -/
theorem C8_amended_witness :
    (log_timeout sC8 7 100).2.buffer = sC8.buffer :=
  (C8_amended sC8 7 100).1 (by decide)

/-- C2 (amended).  After passing the duplicate-suppression check,
`log_timein` queries for an existing (worker_id, today) record only when
the central store is reachable: an open central record yields
`already_in` and a closed one `completed`, both without any write.  When
the central store is unreachable no store is queried at all: the call is
accepted and a new record is appended to the local buffer
unconditionally, so a second offline time-in outside the suppression
window creates a second buffered record instead of returning
`AlreadyOpen`. -/
theorem C2_amended (s : SysState) (w now : Nat)
    (hnd : isDupScan s w now = false) :
    (∀ ex, s.mysql_connected = true →
        findExisting s.central w (now / 86400) = some ex →
        ((ex.time_out = none →
            log_timein s w now
              = (⟨false, TimeinAction.already_in, some ex.attendance_id, none⟩,
                 s)) ∧
         (∀ v, ex.time_out = some v →
            log_timein s w now
              = (⟨false, TimeinAction.completed, none, none⟩, s)))) ∧
    (s.mysql_connected = false →
        (log_timein s w now).1.action = TimeinAction.timein ∧
        (log_timein s w now).2.buffer
          = s.buffer
              ++ [⟨s.next_bid, w, now / 86400, now % 86400, none, none,
                   WStatus.present, false, false⟩]) := by
  constructor
  · intro ex hc hfe
    constructor
    · intro hto
      simp [log_timein, hnd, hc, hfe, hto]
    · intro v hto
      simp [log_timein, hnd, hc, hfe, hto]
  · intro hc
    constructor
    · simp [log_timein, hnd, hc]
    · simp [log_timein, hnd, hc, insert_attendance]

/-- Witness for `C2_amended`: a time-in against an open central record
is answered `already_in` with no state change. -/
theorem C2_amended_witness :
    log_timein sC2w 7 40000
      = (⟨false, TimeinAction.already_in, some 1, none⟩, sC2w) :=
  ((C2_amended sC2w 7 40000 (by decide)).1
      ⟨1, 7, 0, 28800, none, none, .present, false⟩ rfl (by decide)).1 rfl

/-- C10 (confirmed).  A pending buffered record carrying no
`time_out` whose (worker_id, date) already matches a non-archived
central record is marked synced by the pass without any central-store
write: `_sync_record` returns the central table unchanged (the buffered
`time_in` is discarded), and the pass reports it as synced. -/
theorem C10_absorbed (s : SysState) (r : BRecord)
    (hc : s.mysql_connected = true)
    (hr : s.retry_count = [])
    (hb : s.buffer = [r])
    (hs : r.synced = false) (hf : r.failed = false)
    (hto : r.time_out = none)
    (hex : (findExisting s.central r.worker_id r.attendance_date).isSome
             = true) :
    (∀ central nextId b, b.time_out = none →
        (findExisting central b.worker_id b.attendance_date).isSome = true →
        sync_record central nextId b = (central, nextId)) ∧
    (sync_all s true noWriteError).2.central = s.central ∧
    (sync_all s true noWriteError).2.buffer = [{r with synced := true}] ∧
    (sync_all s true noWriteError).1 = ⟨1, 0, 0⟩ := by
  have habs : ∀ (central : List CRecord) (nextId : Nat) (b : BRecord),
      b.time_out = none →
      (findExisting central b.worker_id b.attendance_date).isSome = true →
      sync_record central nextId b = (central, nextId) := by
    intro central nextId b hbto hbex
    unfold sync_record
    cases hfe : findExisting central b.worker_id b.attendance_date with
    | none => rw [hfe] at hbex; simp at hbex
    | some ex => simp [hfe, hbto]
  have hsr : sync_record s.central s.next_cid r = (s.central, s.next_cid) :=
    habs _ _ _ hto hex
  refine ⟨habs, ?_, ?_, ?_⟩ <;>
    simp [sync_all, hc, hb, hr, get_pending_records, hs, hf, syncLoop,
          rlookup, noWriteError, mark_synced, rdel, hsr, beq_self_eq_true]

/-- Witness for `C10_absorbed` at the concrete state `sC10`. -/
theorem C10_absorbed_witness :
    (sync_all sC10 true noWriteError).2.central = sC10.central ∧
    (sync_all sC10 true noWriteError).1 = ⟨1, 0, 0⟩ :=
  ⟨(C10_absorbed sC10 rC10 rfl rfl rfl rfl rfl rfl (by decide)).2.1,
   (C10_absorbed sC10 rC10 rfl rfl rfl rfl rfl rfl (by decide)).2.2.2⟩

/-- A freshly set cache key is found by the next lookup. -/
theorem alookup_aset_self (l : List ((Nat × Nat) × Nat)) (k : Nat × Nat)
    (v : Nat) : alookup (aset l k v) k = some v := by
  simp [alookup, aset, List.find?_cons_of_pos]

/-- A scan caught by the duplicate-suppression cache returns `duplicate`
and leaves the state untouched. -/
theorem log_timein_dup (s : SysState) (w now : Nat)
    (h : isDupScan s w now = true) :
    log_timein s w now
      = (⟨false, TimeinAction.duplicate, none, none⟩, s) := by
  simp [log_timein, h]

/-- An accepted `log_timein` refreshes the suppression cache entry for
(worker, today) with the scan instant. -/
theorem timein_cache_of_accepted (s : SysState) (w now : Nat)
    (h : (log_timein s w now).1.action = TimeinAction.timein) :
    (log_timein s w now).2.last_scan_cache
      = aset s.last_scan_cache (w, now / 86400) now := by
  cases hd : isDupScan s w now with
  | true => simp [log_timein, hd] at h
  | false =>
    cases hc : s.mysql_connected with
    | true =>
      cases hfe : findExisting s.central w (now / 86400) with
      | some ex =>
        by_cases hto : ex.time_out = none
        · simp [log_timein, hd, hc, hfe, hto] at h
        · simp [log_timein, hd, hc, hfe, hto] at h
      | none => simp [log_timein, hd, hc, hfe]
    | false => simp [log_timein, hd, hc]

/-- C7 (confirmed).  After an accepted time-in for worker `w` at
instant `n1`, any second `log_timein` for `w` on the same day at `n2`
within the 30-second suppression window returns `duplicate`, leaves the
state unchanged, and does so whatever the contents of the two stores
(the stores are neither read nor written: the outcome and the state are
the same for every substituted `central'` and `buffer'`).  Moreover only
an accepted time-in refreshes the suppression entry: every non-accepted
outcome leaves the cache unchanged. -/
theorem C7_dup_suppressed (s : SysState) (w n1 n2 : Nat)
    (central' : List CRecord) (buffer' : List BRecord)
    (hacc : (log_timein s w n1).1.action = TimeinAction.timein)
    (_hmono : n1 ≤ n2)
    (hwin : n2 - n1 < DUPLICATE_TIMEOUT_SECONDS)
    (hday : n2 / 86400 = n1 / 86400) :
    log_timein {(log_timein s w n1).2 with
                 central := central', buffer := buffer'} w n2
      = (⟨false, TimeinAction.duplicate, none, none⟩,
         {(log_timein s w n1).2 with
           central := central', buffer := buffer'}) ∧
    (∀ s0 w0 n0, (log_timein s0 w0 n0).1.action ≠ TimeinAction.timein →
        (log_timein s0 w0 n0).2.last_scan_cache = s0.last_scan_cache) := by
  constructor
  · have hcache := timein_cache_of_accepted s w n1 hacc
    have hdup : isDupScan {(log_timein s w n1).2 with
                            central := central', buffer := buffer'} w n2
        = true := by
      unfold isDupScan
      have hc0 : ({(log_timein s w n1).2 with
                    central := central', buffer := buffer'}).last_scan_cache
          = (log_timein s w n1).2.last_scan_cache := rfl
      rw [hc0, hcache, hday, alookup_aset_self]
      simp only [decide_eq_true_eq, tdSeconds]
      rw [Nat.mod_eq_of_lt
            (lt_trans hwin (by decide : DUPLICATE_TIMEOUT_SECONDS < 86400))]
      exact hwin
    exact log_timein_dup _ w n2 hdup
  · intro s0 w0 n0 hne
    cases hd : isDupScan s0 w0 n0 with
    | true => simp [log_timein, hd]
    | false =>
      cases hc : s0.mysql_connected with
      | true =>
        cases hfe : findExisting s0.central w0 (n0 / 86400) with
        | some ex =>
          by_cases hto : ex.time_out = none
          · simp [log_timein, hd, hc, hfe, hto]
          · simp [log_timein, hd, hc, hfe, hto]
        | none =>
          exact absurd (by simp [log_timein, hd, hc, hfe]) hne
      | false =>
        exact absurd (by simp [log_timein, hd, hc]) hne

/-- Witness for `C7_dup_suppressed`: worker 7 accepted at instant 0
while offline, scanned again 10 s later. -/
theorem C7_dup_suppressed_witness :
    log_timein {(log_timein (emptyState false) 7 0).2 with
                 central := [], buffer := []} 7 10
      = (⟨false, TimeinAction.duplicate, none, none⟩,
         {(log_timein (emptyState false) 7 0).2 with
           central := [], buffer := []}) :=
  (C7_dup_suppressed (emptyState false) 7 0 10 [] [] (by decide) (by decide)
      (by decide) (by decide)).1

/-- A record still unsynced after `mark_synced` is an untouched record
of the original buffer with a different id. -/
theorem mark_synced_mem {buf : List BRecord} {i : Nat} {b : BRecord}
    (hb : b ∈ mark_synced buf i) (hs : b.synced = false) :
    b ∈ buf ∧ (b.id == i) = false := by
  unfold mark_synced at hb
  obtain ⟨b0, hb0, heq⟩ := List.mem_map.mp hb
  by_cases h : (b0.id == i) = true
  · simp only [h, if_true] at heq
    rw [← heq] at hs
    simp at hs
  · simp only [h, if_false] at heq
    subst heq
    exact ⟨hb0, by simpa using h⟩

/-- A pass segment in which every write succeeds and the retry table is
empty: every listed record is counted synced, nothing is counted failed,
the retry table stays empty, connectivity is untouched, and every record
still unsynced afterwards is an untouched original whose id is not among
the processed ones. -/
theorem syncLoop_noFail (L : List BRecord) :
    ∀ (s : SysState) (sc fc : Nat), s.retry_count = [] →
      (syncLoop noWriteError L s sc fc).2.1 = sc + L.length ∧
      (syncLoop noWriteError L s sc fc).2.2 = fc ∧
      (syncLoop noWriteError L s sc fc).1.retry_count = [] ∧
      (syncLoop noWriteError L s sc fc).1.mysql_connected
        = s.mysql_connected ∧
      (∀ b ∈ (syncLoop noWriteError L s sc fc).1.buffer, b.synced = false →
          b ∈ s.buffer ∧ ∀ x ∈ L, (b.id == x.id) = false) := by
  induction L with
  | nil =>
    intro s sc fc hr
    refine ⟨by simp [syncLoop], by simp [syncLoop], ?_, ?_, ?_⟩
    · simp [syncLoop, hr]
    · simp [syncLoop]
    · intro b hb hbs
      exact ⟨by simpa [syncLoop] using hb, by simp⟩
  | cons r rest ih =>
    intro s sc fc hr
    have hunf : syncLoop noWriteError (r :: rest) s sc fc
        = syncLoop noWriteError rest
            {s with central := (sync_record s.central s.next_cid r).1,
                    next_cid := (sync_record s.central s.next_cid r).2,
                    buffer := mark_synced s.buffer r.id,
                    retry_count := rdel s.retry_count r.id}
            (sc + 1) fc := by
      simp only [syncLoop, hr]
      simp [rlookup, noWriteError]
    have hr' : rdel s.retry_count r.id = [] := by
      rw [hr]; rfl
    have key := ih {s with central := (sync_record s.central s.next_cid r).1,
                           next_cid := (sync_record s.central s.next_cid r).2,
                           buffer := mark_synced s.buffer r.id,
                           retry_count := rdel s.retry_count r.id}
                   (sc + 1) fc hr'
    rw [hunf]
    refine ⟨?_, key.2.1, key.2.2.1, key.2.2.2.1, ?_⟩
    · rw [key.1]
      simp [List.length_cons]
      omega
    · intro b hbmem hbs
      obtain ⟨hb1, hb2⟩ := key.2.2.2.2 b hbmem hbs
      obtain ⟨hb3, hb4⟩ := mark_synced_mem hb1 hbs
      refine ⟨hb3, ?_⟩
      intro x hx
      rcases List.mem_cons.mp hx with hx1 | hx2
      · rw [hx1]; exact hb4
      · exact hb2 x hx2

/-- A full all-success pass from an empty retry table: the aggregate is
(number of pending records, 0, 0) and afterwards nothing is pending. -/
theorem sync_all_noFail (s : SysState) (hc : s.mysql_connected = true)
    (hr : s.retry_count = []) :
    (sync_all s true noWriteError).1
      = ⟨(get_pending_records s.buffer).length, 0, 0⟩ ∧
    (sync_all s true noWriteError).2.retry_count = [] ∧
    (sync_all s true noWriteError).2.mysql_connected = true ∧
    get_pending_records (sync_all s true noWriteError).2.buffer = [] := by
  obtain ⟨l1, l2, l3, l4, l5⟩ :=
    syncLoop_noFail (get_pending_records s.buffer) s 0 0 hr
  have e1 : (sync_all s true noWriteError).2
      = (syncLoop noWriteError (get_pending_records s.buffer) s 0 0).1 := by
    simp [sync_all, hc]
  have e2 : (sync_all s true noWriteError).1
      = ⟨(syncLoop noWriteError (get_pending_records s.buffer) s 0 0).2.1,
         (syncLoop noWriteError (get_pending_records s.buffer) s 0 0).2.2,
         (get_pending_records s.buffer).length
           - (syncLoop noWriteError (get_pending_records s.buffer) s 0 0).2.1
           - (syncLoop noWriteError (get_pending_records s.buffer)
               s 0 0).2.2⟩ := by
    simp [sync_all, hc]
  refine ⟨?_, ?_, ?_, ?_⟩
  · rw [e2, l1, l2]
    simp
  · rw [e1]; exact l3
  · rw [e1, l4]; exact hc
  · rw [e1]
    rw [get_pending_records, List.filter_eq_nil_iff]
    intro b hb hcontra
    have hbs : b.synced = false := by
      have := (Bool.and_eq_true _ _).mp hcontra
      simpa using this.1
    obtain ⟨hb1, hb2⟩ := l5 b hb hbs
    have hmem : b ∈ get_pending_records s.buffer := by
      rw [get_pending_records, List.mem_filter]
      exact ⟨hb1, hcontra⟩
    have hself := hb2 b hmem
    simp at hself

/-- C5 (confirmed).  Reconciliation is idempotent: `_sync_record` on
a buffered record whose (worker_id, date) already has a non-archived
central match never inserts a row (the central table keeps its length
and the fresh-id counter does not advance); and running the pass twice
in a row with every write succeeding syncs each pending record once (the
first aggregate counts all pending records as synced, none as failed)
while the second pass is a no-op: it returns `{synced: 0, failed: 0,
pending: 0}` and leaves the state exactly unchanged. -/
theorem C5_idempotent (s : SysState) (hc : s.mysql_connected = true)
    (hr : s.retry_count = []) :
    (∀ (central : List CRecord) (nextId : Nat) (b : BRecord),
        (findExisting central b.worker_id b.attendance_date).isSome = true →
        (sync_record central nextId b).1.length = central.length ∧
        (sync_record central nextId b).2 = nextId) ∧
    (sync_all s true noWriteError).1.synced
      = (get_pending_records s.buffer).length ∧
    (sync_all s true noWriteError).1.failed = 0 ∧
    sync_all (sync_all s true noWriteError).2 true noWriteError
      = (⟨0, 0, 0⟩, (sync_all s true noWriteError).2) := by
  obtain ⟨p1, p2, p3, p4⟩ := sync_all_noFail s hc hr
  refine ⟨?_, by rw [p1], by rw [p1], ?_⟩
  · intro central nextId b hex
    unfold sync_record
    cases hfe : findExisting central b.worker_id b.attendance_date with
    | none => rw [hfe] at hex; simp at hex
    | some ex =>
      cases hbto : b.time_out with
      | none => simp [hfe, hbto]
      | some tout => simp [hfe, hbto]
  · generalize hgen : (sync_all s true noWriteError).2 = s1 at p3 p4 ⊢
    simp [sync_all, p3, p4, syncLoop]

/-- Witness for `C5_idempotent`: after syncing the single pending record
of `sC5w`, a second pass is a no-op. -/
theorem C5_idempotent_witness :
    sync_all (sync_all sC5w true noWriteError).2 true noWriteError
      = (⟨0, 0, 0⟩, (sync_all sC5w true noWriteError).2) :=
  (C5_idempotent sC5w rfl rfl).2.2.2

/-- Closed central records are kept by the identity. -/
theorem recClosedKept_refl (l : List CRecord) : recClosedKept l l :=
  fun c hc _v hv => ⟨c, hc, rfl, hv, rfl, rfl⟩

/-- Closed central records are kept by appending rows. -/
theorem recClosedKept_append (l t : List CRecord) :
    recClosedKept l (l ++ t) :=
  fun c hc _v hv => ⟨c, List.mem_append_left _ hc, rfl, hv, rfl, rfl⟩

/-- Closed-record preservation composes. -/
theorem recClosedKept_trans {a b c : List CRecord}
    (h1 : recClosedKept a b) (h2 : recClosedKept b c) :
    recClosedKept a c := by
  intro x hx v hv
  obtain ⟨y, hy, hy1, hy2, hy3, hy4⟩ := h1 x hx v hv
  obtain ⟨z, hz, hz1, hz2, hz3, hz4⟩ := h2 y hy v hy2
  exact ⟨z, hz, by rw [hz1, hy1], hz2, by rw [hz3, hy3], by rw [hz4, hy4]⟩

/-- Closed central records are kept by any row map that fixes closed
rows. -/
theorem recClosedKept_map {l : List CRecord} {f : CRecord → CRecord}
    (h : ∀ c ∈ l, ∀ v, c.time_out = some v → f c = c) :
    recClosedKept l (l.map f) := by
  intro c hc v hv
  refine ⟨f c, List.mem_map_of_mem f hc, ?_⟩
  rw [h c hc v hv]
  exact ⟨rfl, hv, rfl, rfl⟩

/-- Closed buffered records are kept by the identity. -/
theorem bufClosedKept_refl (l : List BRecord) : bufClosedKept l l :=
  fun b hb _v hv => ⟨b, hb, rfl, hv, rfl, rfl⟩

/-- Closed buffered records are kept by appending rows. -/
theorem bufClosedKept_append (l t : List BRecord) :
    bufClosedKept l (l ++ t) :=
  fun b hb _v hv => ⟨b, List.mem_append_left _ hb, rfl, hv, rfl, rfl⟩

/-- Closed-record preservation on buffers composes. -/
theorem bufClosedKept_trans {a b c : List BRecord}
    (h1 : bufClosedKept a b) (h2 : bufClosedKept b c) :
    bufClosedKept a c := by
  intro x hx v hv
  obtain ⟨y, hy, hy1, hy2, hy3, hy4⟩ := h1 x hx v hv
  obtain ⟨z, hz, hz1, hz2, hz3, hz4⟩ := h2 y hy v hy2
  exact ⟨z, hz, by rw [hz1, hy1], hz2, by rw [hz3, hy3], by rw [hz4, hy4]⟩

/-- Marking synced only flips a flag: all time fields survive. -/
theorem bufClosedKept_mark_synced (buf : List BRecord) (i : Nat) :
    bufClosedKept buf (mark_synced buf i) := by
  intro b hb v hv
  unfold mark_synced
  refine ⟨_, List.mem_map_of_mem _ hb, ?_⟩
  by_cases h : (b.id == i) = true <;> simp [h, hv]

/-- A successful `update_timeout` only closes an open record: closed
buffered records are untouched. -/
theorem update_timeout_closedKept :
    ∀ (buf : List BRecord) (w d tout : Nat) (hrs : ℚ)
      (buf' : List BRecord),
      update_timeout buf w d tout hrs = some buf' →
      bufClosedKept buf buf' := by
  intro buf
  induction buf with
  | nil =>
    intro w d tout hrs buf' h
    simp [update_timeout] at h
  | cons b rest ih =>
    intro w d tout hrs buf' h
    unfold update_timeout at h
    by_cases hcond : (b.worker_id == w && b.attendance_date == d
        && b.time_out == none) = true
    · simp only [hcond, if_true, Option.some.injEq] at h
      subst h
      intro x hx v hv
      rcases List.mem_cons.mp hx with rfl | hx2
      · exfalso
        have hopen : x.time_out = none := by
          have h3 := ((Bool.and_eq_true _ _).mp hcond).2
          simpa using h3
        rw [hopen] at hv
        exact Option.noConfusion hv
      · exact ⟨x, List.mem_cons_of_mem _ hx2, rfl, hv, rfl, rfl⟩
    · simp only [hcond, if_false] at h
      cases hur : update_timeout rest w d tout hrs with
      | none => rw [hur] at h; simp at h
      | some l2 =>
        rw [hur] at h
        simp at h
        subst h
        intro x hx v hv
        rcases List.mem_cons.mp hx with rfl | hx2
        · exact ⟨x, List.mem_cons_self _ _, rfl, hv, rfl, rfl⟩
        · obtain ⟨y, hy, h1, h2, h3, h4⟩ := ih w d tout hrs l2 hur x hx2 v hv
          exact ⟨y, List.mem_cons_of_mem _ hy, h1, h2, h3, h4⟩

/-- The state effect of `log_timein`: unchanged, a central append, or a
buffer append. -/
theorem log_timein_state (s : SysState) (w now : Nat) :
    (log_timein s w now).2 = s ∨
    ((log_timein s w now).2.central
        = s.central ++ [⟨s.next_cid, w, now / 86400, now % 86400, none,
                         none, .present, false⟩] ∧
     (log_timein s w now).2.buffer = s.buffer) ∨
    ((log_timein s w now).2.central = s.central ∧
     (log_timein s w now).2.buffer
        = s.buffer ++ [⟨s.next_bid, w, now / 86400, now % 86400, none,
                        none, .present, false, false⟩]) := by
  cases hd : isDupScan s w now with
  | true => exact Or.inl (by rw [log_timein_dup s w now hd])
  | false =>
    cases hc : s.mysql_connected with
    | true =>
      cases hfe : findExisting s.central w (now / 86400) with
      | some ex =>
        by_cases hto : ex.time_out = none
        · exact Or.inl (by simp [log_timein, hd, hc, hfe, hto])
        · exact Or.inl (by simp [log_timein, hd, hc, hfe, hto])
      | none =>
        exact Or.inr (Or.inl (by simp [log_timein, hd, hc, hfe]))
    | false =>
      exact Or.inr (Or.inr (by simp [log_timein, hd, hc, insert_attendance]))

/-- Operation `log_timein` keeps closed records in both stores. -/
theorem timein_closedKept (s : SysState) (w now : Nat) :
    recClosedKept s.central (log_timein s w now).2.central ∧
    bufClosedKept s.buffer (log_timein s w now).2.buffer := by
  rcases log_timein_state s w now with h | ⟨h1, h2⟩ | ⟨h1, h2⟩
  · rw [h]
    exact ⟨recClosedKept_refl _, bufClosedKept_refl _⟩
  · rw [h1, h2]
    exact ⟨recClosedKept_append _ _, bufClosedKept_refl _⟩
  · rw [h1, h2]
    exact ⟨recClosedKept_refl _, bufClosedKept_append _ _⟩

/-- Operation `log_timeout` keeps closed records in both stores: the central
update targets the record selected with `time_out IS NULL` (unique by
the id-uniqueness hypothesis) and the buffered update only closes an
open record. -/
theorem timeout_closedKept (s : SysState) (w now : Nat)
    (hid : (s.central.map CRecord.attendance_id).Nodup) :
    recClosedKept s.central (log_timeout s w now).2.central ∧
    bufClosedKept s.buffer (log_timeout s w now).2.buffer := by
  cases hc : s.mysql_connected with
  | true =>
    cases hfo : findOpen s.central w (now / 86400) with
    | none =>
      have h : (log_timeout s w now).2 = s := by simp [log_timeout, hc, hfo]
      rw [h]
      exact ⟨recClosedKept_refl _, bufClosedKept_refl _⟩
    | some r =>
      have hrmem : r ∈ s.central := List.mem_of_find?_eq_some hfo
      have hropen : r.time_out = none := by
        have hp := List.find?_some hfo
        simp only [Bool.and_eq_true] at hp
        simpa using hp.1.2
      have hbuf : (log_timeout s w now).2.buffer = s.buffer := by
        simp [log_timeout, hc, hfo]
      have hcen : (log_timeout s w now).2.central
          = s.central.map (fun c =>
              if c.attendance_id == r.attendance_id then
                {c with time_out := some (now % 86400),
                        hours_worked :=
                          some ((strptimeDiffSeconds now r.time_in : ℚ)
                                  / 3600)}
              else c) := by
        simp [log_timeout, hc, hfo]
      rw [hcen, hbuf]
      refine ⟨recClosedKept_map ?_, bufClosedKept_refl _⟩
      intro c hcmem v hv
      have hne : (c.attendance_id == r.attendance_id) = false := by
        cases hb2 : (c.attendance_id == r.attendance_id) with
        | false => rfl
        | true =>
          exfalso
          have hcr : c = r :=
            List.inj_on_of_nodup_map hid hcmem hrmem (beq_iff_eq.mp hb2)
          rw [hcr, hropen] at hv
          exact Option.noConfusion hv
      simp [hne]
  | false =>
    cases hut : update_timeout s.buffer w (now / 86400) (now % 86400) 8 with
    | none =>
      have h : (log_timeout s w now).2 = s := by simp [log_timeout, hc, hut]
      rw [h]
      exact ⟨recClosedKept_refl _, bufClosedKept_refl _⟩
    | some buf2 =>
      have hcen : (log_timeout s w now).2.central = s.central := by
        simp [log_timeout, hc, hut]
      have hbuf : (log_timeout s w now).2.buffer = buf2 := by
        simp [log_timeout, hc, hut]
      rw [hcen, hbuf]
      exact ⟨recClosedKept_refl _,
             update_timeout_closedKept _ _ _ _ _ _ hut⟩

/-- Operation `_sync_record` keeps closed central records: the update-close is
guarded by `time_out IS NULL` in its WHERE clause, and the other
branches append or do nothing. -/
theorem sync_record_closedKept (central : List CRecord) (nid : Nat)
    (r : BRecord) :
    recClosedKept central (sync_record central nid r).1 := by
  unfold sync_record
  cases hfe : findExisting central r.worker_id r.attendance_date with
  | some ex =>
    cases hto : r.time_out with
    | some tout =>
      simp only
      refine recClosedKept_map ?_
      intro c hcm v hv
      have hcl : (c.time_out == none) = false := by rw [hv]; rfl
      simp [hcl]
    | none =>
      simp only
      exact recClosedKept_refl _
  | none =>
    simp only
    exact recClosedKept_append _ _

/-- One step of the sync loop is a skip, a retry bump, or a successful
record sync. -/
theorem syncLoop_cons (wf : Nat → Bool) (r : BRecord) (rest : List BRecord)
    (s : SysState) (sc fc : Nat) :
    syncLoop wf (r :: rest) s sc fc = syncLoop wf rest s sc (fc + 1) ∨
    syncLoop wf (r :: rest) s sc fc
      = syncLoop wf rest
          {s with retry_count :=
                    rset s.retry_count r.id
                      ((rlookup s.retry_count r.id).getD 0 + 1)}
          sc (fc + 1) ∨
    syncLoop wf (r :: rest) s sc fc
      = syncLoop wf rest
          {s with central := (sync_record s.central s.next_cid r).1,
                  next_cid := (sync_record s.central s.next_cid r).2,
                  buffer := mark_synced s.buffer r.id,
                  retry_count := rdel s.retry_count r.id}
          (sc + 1) fc := by
  cases hrl : rlookup s.retry_count r.id with
  | some n =>
    by_cases hn : MAX_RETRY_ATTEMPTS ≤ n
    · exact Or.inl (by simp [syncLoop, hrl, hn])
    · cases hw : wf r.id with
      | true => exact Or.inr (Or.inl (by simp [syncLoop, hrl, hn, hw]))
      | false => exact Or.inr (Or.inr (by simp [syncLoop, hrl, hn, hw]))
  | none =>
    cases hw : wf r.id with
    | true => exact Or.inr (Or.inl (by simp [syncLoop, hrl, hw]))
    | false => exact Or.inr (Or.inr (by simp [syncLoop, hrl, hw]))

/-- The whole sync loop keeps closed records in both stores. -/
theorem syncLoop_closedKept (wf : Nat → Bool) (L : List BRecord) :
    ∀ (s : SysState) (sc fc : Nat),
      recClosedKept s.central (syncLoop wf L s sc fc).1.central ∧
      bufClosedKept s.buffer (syncLoop wf L s sc fc).1.buffer := by
  induction L with
  | nil =>
    intro s sc fc
    simp only [syncLoop]
    exact ⟨recClosedKept_refl _, bufClosedKept_refl _⟩
  | cons r rest ih =>
    intro s sc fc
    rcases syncLoop_cons wf r rest s sc fc with h | h | h
    · rw [h]; exact ih s sc (fc + 1)
    · rw [h]
      exact ih {s with
                 retry_count := rset s.retry_count r.id
                   ((rlookup s.retry_count r.id).getD 0 + 1)} sc (fc + 1)
    · rw [h]
      obtain ⟨ihc, ihb⟩ :=
        ih {s with central := (sync_record s.central s.next_cid r).1,
                   next_cid := (sync_record s.central s.next_cid r).2,
                   buffer := mark_synced s.buffer r.id,
                   retry_count := rdel s.retry_count r.id} (sc + 1) fc
      exact ⟨recClosedKept_trans (sync_record_closedKept s.central
               s.next_cid r) ihc,
             bufClosedKept_trans (bufClosedKept_mark_synced s.buffer r.id)
               ihb⟩

/-- C9 (confirmed, invariant I2).  Once `time_out` is set on a
record, no ledger or sync-engine operation clears or overwrites it: for
every closed record of either store, after `log_timein`, `log_timeout`
or `sync_all` there is a record with the same surrogate id carrying the
same `time_in`, `time_out` and `hours_worked`.  The central update of
`log_timeout` selects its target with `time_out IS NULL` (so, with
unique surrogate ids, never a closed row), and the sync engine's
update-close carries `time_out IS NULL` in its WHERE clause. -/
theorem C9_closed_immutable (s : SysState) (w now : Nat)
    (connectOk : Bool) (wf : Nat → Bool)
    (hid : (s.central.map CRecord.attendance_id).Nodup) :
    (recClosedKept s.central (log_timein s w now).2.central ∧
     bufClosedKept s.buffer (log_timein s w now).2.buffer) ∧
    (recClosedKept s.central (log_timeout s w now).2.central ∧
     bufClosedKept s.buffer (log_timeout s w now).2.buffer) ∧
    (recClosedKept s.central (sync_all s connectOk wf).2.central ∧
     bufClosedKept s.buffer (sync_all s connectOk wf).2.buffer) := by
  refine ⟨timein_closedKept s w now, timeout_closedKept s w now hid, ?_⟩
  cases hc : s.mysql_connected with
  | true =>
    have h2 : (sync_all s connectOk wf).2
        = (syncLoop wf (get_pending_records s.buffer) s 0 0).1 := by
      simp [sync_all, hc]
    rw [h2]
    exact syncLoop_closedKept wf _ s 0 0
  | false =>
    cases connectOk with
    | false =>
      have h2 : (sync_all s false wf).2 = s := by
        simp [sync_all, hc]
      rw [h2]
      exact ⟨recClosedKept_refl _, bufClosedKept_refl _⟩
    | true =>
      have h2 : (sync_all s true wf).2
          = (syncLoop wf
              (get_pending_records s.buffer)
              {s with mysql_connected := true} 0 0).1 := by
        simp [sync_all, hc]
      rw [h2]
      exact syncLoop_closedKept wf _ {s with mysql_connected := true} 0 0

/-- Witness for `C9_closed_immutable`: the closed record of `sC9`
survives a `log_timeout` call. -/
theorem C9_closed_immutable_witness :
    recClosedKept sC9.central (log_timeout sC9 5 0).2.central :=
  (C9_closed_immutable sC9 5 0 true noWriteError (by decide)).2.1.1

/-- Filtering commutes with a row map that never changes the filtered
predicate. -/
theorem filterlen_map_eq {l : List CRecord} {f : CRecord → CRecord}
    {p : CRecord → Bool} (h : ∀ c, p (f c) = p c) :
    ((l.map f).filter p).length = (l.filter p).length := by
  induction l with
  | nil => rfl
  | cons a t ih =>
    cases hpa : p a with
    | true => simp [List.filter_cons, h a, hpa, ih]
    | false => simp [List.filter_cons, h a, hpa, ih]

/-- A connected `log_timein` preserves the inductive invariant: it only
inserts a central record after the authoritative query found no
non-archived record for the key. -/
theorem invc_timein (s : SysState) (w now : Nat) (h : InvC s) :
    InvC (log_timein s w now).2 := by
  obtain ⟨hc, hb, hcount⟩ := h
  cases hd : isDupScan s w now with
  | true =>
    rw [log_timein_dup s w now hd]
    exact ⟨hc, hb, hcount⟩
  | false =>
    cases hfe : findExisting s.central w (now / 86400) with
    | some ex =>
      by_cases hto : ex.time_out = none
      · have hst : (log_timein s w now).2 = s := by
          simp [log_timein, hd, hc, hfe, hto]
        rw [hst]; exact ⟨hc, hb, hcount⟩
      · have hst : (log_timein s w now).2 = s := by
          simp [log_timein, hd, hc, hfe, hto]
        rw [hst]; exact ⟨hc, hb, hcount⟩
    | none =>
      have hcen : (log_timein s w now).2.central
          = s.central ++ [⟨s.next_cid, w, now / 86400, now % 86400, none,
                           none, .present, false⟩] := by
        simp [log_timein, hd, hc, hfe]
      have hbuf : (log_timein s w now).2.buffer = s.buffer := by
        simp [log_timein, hd, hc, hfe]
      have hcon : (log_timein s w now).2.mysql_connected
          = s.mysql_connected := by
        simp [log_timein, hd, hc, hfe]
      refine ⟨by rw [hcon]; exact hc, by rw [hbuf]; exact hb, ?_⟩
      intro w' d'
      rw [nonArchCount, hcen, List.filter_append, List.length_append]
      by_cases hkey : w = w' ∧ now / 86400 = d'
      · obtain ⟨hw, hdd⟩ := hkey
        subst hw
        subst hdd
        have h0 : (s.central.filter (fun c =>
            c.worker_id == w && c.attendance_date == now / 86400
              && !c.is_archived)).length = 0 := by
          have hnil : s.central.filter (fun c =>
              c.worker_id == w && c.attendance_date == now / 86400
                && !c.is_archived) = [] := by
            rw [List.filter_eq_nil_iff]
            intro c hcm
            exact List.find?_eq_none.mp hfe c hcm
          rw [hnil]; rfl
        rw [h0]
        simp
      · have hnr : ((⟨s.next_cid, w, now / 86400, now % 86400, none, none,
            WStatus.present, false⟩ : CRecord).worker_id == w'
              && (⟨s.next_cid, w, now / 86400, now % 86400, none, none,
                   WStatus.present, false⟩ : CRecord).attendance_date == d'
              && !(⟨s.next_cid, w, now / 86400, now % 86400, none, none,
                    WStatus.present, false⟩ : CRecord).is_archived)
            = false := by
          rcases not_and_or.mp hkey with hne | hne <;>
            simp [beq_eq_false_iff_ne, hne]
        rw [List.filter_cons]
        rw [hnr]
        simpa using hcount w' d'

/-- A connected `log_timeout` preserves the inductive invariant: the
central UPDATE changes neither keys nor the archive flag. -/
theorem invc_timeout (s : SysState) (w now : Nat) (h : InvC s) :
    InvC (log_timeout s w now).2 := by
  obtain ⟨hc, hb, hcount⟩ := h
  cases hfo : findOpen s.central w (now / 86400) with
  | none =>
    have hst : (log_timeout s w now).2 = s := by simp [log_timeout, hc, hfo]
    rw [hst]; exact ⟨hc, hb, hcount⟩
  | some r =>
    have hcen : (log_timeout s w now).2.central
        = s.central.map (fun c =>
            if c.attendance_id == r.attendance_id then
              {c with time_out := some (now % 86400),
                      hours_worked :=
                        some ((strptimeDiffSeconds now r.time_in : ℚ)
                                / 3600)}
            else c) := by
      simp [log_timeout, hc, hfo]
    have hbuf : (log_timeout s w now).2.buffer = s.buffer := by
      simp [log_timeout, hc, hfo]
    have hcon : (log_timeout s w now).2.mysql_connected
        = s.mysql_connected := by
      simp [log_timeout, hc, hfo]
    refine ⟨by rw [hcon]; exact hc, by rw [hbuf]; exact hb, ?_⟩
    intro w' d'
    rw [nonArchCount, hcen, filterlen_map_eq]
    · exact hcount w' d'
    · intro c
      by_cases hcc : (c.attendance_id == r.attendance_id) = true <;>
        simp [hcc]

/-- With the invariant, at most one record is open across both stores
for any (worker, date). -/
theorem openTotal_le_of_invc (s : SysState) (h : InvC s) (w d : Nat) :
    openTotal s w d ≤ 1 := by
  obtain ⟨hc, hb, hcount⟩ := h
  rw [openTotal, openCountBuffer, hb]
  simp only [List.filter_nil, List.length_nil, Nat.add_zero]
  refine le_trans ?_ (hcount w d)
  rw [openCountCentral, nonArchCount]
  refine List.Sublist.length_le (List.monotone_filter_right _ ?_)
  intro c hp
  simp only [Bool.and_eq_true] at hp ⊢
  exact hp.1

/-- The inductive invariant is preserved along any sequence of ledger
calls. -/
theorem invc_runOps (ops : List LedgerOp) :
    ∀ s, InvC s → InvC (runOps s ops) := by
  induction ops with
  | nil => intro s h; exact h
  | cons op rest ih =>
    intro s h
    have hstep : runOps s (op :: rest) = runOps (runOp s op) rest := rfl
    rw [hstep]
    refine ih _ ?_
    cases op with
    | tin w now => exact invc_timein s w now h
    | tout w now => exact invc_timeout s w now h

/-- C1 (amended, invariant I1 for connected runs).  Starting from an
empty system with the central store reachable, every sequence of
`log_timein`/`log_timeout` calls leaves at most one open AttendanceRecord
per (worker_id, date) across both stores combined (the buffer stays
empty and the central store holds at most one non-archived record per
key).  The counterexample shows the unrestricted claim fails as soon as
time-ins occur while the central store is unreachable. -/
theorem C1_amended (ops : List LedgerOp) (w d : Nat) :
    openTotal (runOps (emptyState true) ops) w d ≤ 1 := by
  refine openTotal_le_of_invc _ ?_ w d
  refine invc_runOps ops _ ?_
  refine ⟨rfl, rfl, ?_⟩
  intro w' d'
  simp [nonArchCount, emptyState]
